import Mathlib

/-!
Shallow embedding of the evete-finder backend (Express + Mongoose) core:
event records, booking records, the booking-creation and booking-cancellation
handlers of `src/routes/booking.routes.js`, the organizer event-update and
admin reject handlers of `routes/events.js`, the wishlist add handler of
`src/routes/wishlist.routes.js`, and the register handler of
`routes/auth.routes.js`.

Persistent MongoDB state is modelled as explicit lists of records; `findById`
becomes `List.find?` on the id field and mongoose `save` becomes replacement
of the document with the matching id.  Display-only fields never read by any
handler under verification (latitude, longitude, rating, reviewCount,
organizerName, qrCode, paymentId, bookingRef, notes) are elided.
-/

namespace EventFinder

/-- Document identifier (stands for a Mongo ObjectId). -/
abbrev Oid := Nat

/-- Booking.status enum from `models/Booking.js`: `['confirmed', 'pending', 'cancelled']`,
default `'confirmed'`. -/
inductive BookingStatus where
  | confirmed
  | pending
  | cancelled
deriving DecidableEq, Repr

/-- Event.status enum from `models/Event.js`: `['pending', 'approved', 'rejected']`,
default `'pending'`. -/
inductive EventStatus where
  | pending
  | approved
  | rejected
deriving DecidableEq, Repr

/-- Booking document (`models/Booking.js`). -/
structure Booking where
  id : Oid
  user : Oid
  event : Oid
  numberOfSeats : Nat
  totalPrice : Nat
  status : BookingStatus
deriving DecidableEq, Repr

/-- Event document (`models/Event.js`).  `date` is an opaque timestamp. -/
structure Event where
  id : Oid
  title : String
  description : String
  category : String
  date : Nat
  time : String
  location : String
  organizer : Oid
  images : List String
  price : Nat
  totalSeats : Nat
  availableSeats : Nat
  isFeatured : Bool
  isActive : Bool
  bookings : List Oid
  status : EventStatus
  adminNote : String
  reviewedAt : Option Nat
  reviewedBy : Option Oid
deriving DecidableEq, Repr

/-- The persistent store as seen by the booking/event handlers.  `nextId` models
the fresh ObjectId generated for the next inserted document. -/
structure DB where
  events : List Event
  bookings : List Booking
  nextId : Oid
deriving DecidableEq, Repr

/-- `Event.findById` — first document whose id matches. -/
def findEvent (es : List Event) (i : Oid) : Option Event :=
  es.find? (fun e => e.id == i)

/-- `Booking.findById` — first document whose id matches. -/
def findBooking (bs : List Booking) (i : Oid) : Option Booking :=
  bs.find? (fun b => b.id == i)

/-- Mongoose `save` on an already-persisted event: the stored document with this
id is replaced by the in-memory one. -/
def saveEvent (es : List Event) (ev : Event) : List Event :=
  es.map (fun e => if e.id == ev.id then ev else e)

/-- Mongoose `save` on an already-persisted booking. -/
def saveBooking (bs : List Booking) (b : Booking) : List Booking :=
  bs.map (fun x => if x.id == b.id then b else x)

/-- Outcome of `POST /bookings` (create booking handler,
`src/routes/booking.routes.js` lines 66-128), labelled with the HTTP status
the handler sends. -/
inductive CreateOutcome where
  /-- 400 `'Event ID and number of seats are required'`. -/
  | validationError
  /-- 404 `'Event not found'`. -/
  | notFound
  /-- 400 `'Not enough seats available'`, carrying `data.available`. -/
  | conflict (available : Nat)
  /-- 201 `'Booking created successfully'`, carrying the new booking. -/
  | created (b : Booking)
deriving DecidableEq, Repr

/-- Everything the create-booking handler does after `Event.findById` returned
the snapshot `ev` (lines 87-110 of `src/routes/booking.routes.js`): the seat
check against the snapshot, `new Booking(...)` + `booking.save()`, then
`event.availableSeats -= numberOfSeats; event.bookings.push(...); event.save()`
— the saved event is the in-memory snapshot with its counter decremented. -/
def createBookingWrite (db : DB) (userId : Oid) (eventId : Oid) (seats : Int)
    (ev : Event) : CreateOutcome × DB :=
  if (ev.availableSeats : Int) < seats then
    (.conflict ev.availableSeats, db)
  else
    let s := seats.toNat
    let b : Booking :=
      { id := db.nextId, user := userId, event := eventId,
        numberOfSeats := s, totalPrice := ev.price * s, status := .confirmed }
    let ev' := { ev with availableSeats := ev.availableSeats - s,
                         bookings := ev.bookings ++ [b.id] }
    (.created b,
     { events := saveEvent db.events ev',
       bookings := db.bookings ++ [b],
       nextId := db.nextId + 1 })

/-- `POST /bookings` handler.  `eventId?` is `none` when the body field is
absent or falsy; the body validation `!eventId || !numberOfSeats ||
numberOfSeats < 1` collapses to `eventId? = none ∨ seats < 1` over the
integers. -/
def createBooking (db : DB) (userId : Oid) (eventId? : Option Oid)
    (seats : Int) : CreateOutcome × DB :=
  match eventId? with
  | none => (.validationError, db)
  | some eventId =>
    if seats < 1 then (.validationError, db)
    else
      match findEvent db.events eventId with
      | none => (.notFound, db)
      | some ev => createBookingWrite db userId eventId seats ev

/-- Outcome of `PUT /bookings/:id/cancel` (cancel booking handler,
`src/routes/booking.routes.js` lines 131-170). -/
inductive CancelOutcome where
  /-- 404 `'Booking not found'`. -/
  | notFound
  /-- 403 `'Not authorized to cancel this booking'`. -/
  | forbidden
  /-- 500: `Event.findById(booking.event)` returned null and the unguarded
  `event.availableSeats += ...` threw, after the booking was already saved
  as cancelled. -/
  | internalError
  /-- 200 `'Booking cancelled successfully'`, carrying the saved booking. -/
  | ok (b : Booking)
deriving DecidableEq, Repr

/-- `PUT /bookings/:id/cancel` handler.  Note that the source never checks the
booking's current status: it unconditionally sets `status = 'cancelled'` and
unconditionally adds `booking.numberOfSeats` back to the event. -/
def cancelBooking (db : DB) (callerId : Oid) (bookingId : Oid) :
    CancelOutcome × DB :=
  match findBooking db.bookings bookingId with
  | none => (.notFound, db)
  | some b =>
    if b.user ≠ callerId then (.forbidden, db)
    else
      let b' := { b with status := BookingStatus.cancelled }
      let db1 : DB := { db with bookings := saveBooking db.bookings b' }
      match findEvent db1.events b.event with
      | none => (.internalError, db1)
      | some ev =>
        let ev' := { ev with availableSeats := ev.availableSeats + b.numberOfSeats }
        (.ok b', { db1 with events := saveEvent db1.events ev' })

/-- Sum of `numberOfSeats` over the bookings on event `eid` whose status is not
`cancelled`. -/
def activeSeats (bs : List Booking) (eid : Oid) : Nat :=
  ((bs.filter (fun b => b.event == eid && b.status != BookingStatus.cancelled)).map
    (fun b => b.numberOfSeats)).sum

/-- The spec's seat invariant for one event record against the booking table. -/
def seatInvariant (db : DB) (ev : Event) : Prop :=
  ev.availableSeats + activeSeats db.bookings ev.id = ev.totalSeats

instance (db : DB) (ev : Event) : Decidable (seatInvariant db ev) := by
  unfold seatInvariant; infer_instance

/-- Two concurrent `POST /bookings` requests against the same event under the
schedule read₁ · read₂ · write₁ · write₂: both handlers execute
`Event.findById` before either reaches its write section, so both hold the
same snapshot; the writes then serialize at the store.  Each request's code is
exactly `createBooking`'s, split at the `findEvent` boundary. -/
def raceTwoCreates (db : DB) (u₁ u₂ : Oid) (eventId : Oid) (s₁ s₂ : Int) :
    (CreateOutcome × CreateOutcome) × DB :=
  if s₁ < 1 ∨ s₂ < 1 then ((.validationError, .validationError), db)
  else
    match findEvent db.events eventId with
    | none => ((.notFound, .notFound), db)
    | some snap =>
      let r₁ := createBookingWrite db u₁ eventId s₁ snap
      let r₂ := createBookingWrite r₁.2 u₂ eventId s₂ snap
      ((r₁.1, r₂.1), r₂.2)

/-! Concrete fixtures for evaluating the handlers on the failing inputs. -/

/-- An approved event with 2 total seats, 2 available, price 5, organizer 9. -/
def evTwoSeats : Event :=
  { id := 1, title := "Concert", description := "live show", category := "Music",
    date := 20250101, time := "18:00", location := "Hall", organizer := 9,
    images := [], price := 5, totalSeats := 2, availableSeats := 2,
    isFeatured := false, isActive := true, bookings := [],
    status := .approved, adminNote := "", reviewedAt := some 11, reviewedBy := some 8 }

/-- Store holding only `evTwoSeats`, no bookings. -/
def dbTwoSeats : DB := { events := [evTwoSeats], bookings := [], nextId := 100 }

/-- The store after: user 7 books 1 seat on event 1, then cancels that booking
twice (both cancel calls made by the owner, user 7). -/
def dbDoubleCancel : DB :=
  (cancelBooking (cancelBooking (createBooking dbTwoSeats 7 (some 1) 1).2 7 100).2 7 100).2

/-- A store whose only booking (id 50, user 7, 1 seat on event 1) is already
`cancelled`, with the event's 2 seats fully available again. -/
def bookingCancelled : Booking :=
  { id := 50, user := 7, event := 1, numberOfSeats := 1, totalPrice := 5,
    status := .cancelled }

/-- Store for the second-cancel experiment: the seats of the cancelled booking
have already been returned (`availableSeats = totalSeats = 2`). -/
def dbAfterCancel : DB :=
  { events := [evTwoSeats], bookings := [bookingCancelled], nextId := 60 }

/-- An approved event with a single seat (`availableSeats = totalSeats = 1`),
price 10. -/
def evOneSeat : Event :=
  { id := 1, title := "Premiere", description := "opening night", category := "Arts",
    date := 20250202, time := "20:00", location := "Theatre", organizer := 9,
    images := [], price := 10, totalSeats := 1, availableSeats := 1,
    isFeatured := false, isActive := true, bookings := [],
    status := .approved, adminNote := "", reviewedAt := some 12, reviewedBy := some 8 }

/-- Store holding only `evOneSeat`. -/
def dbOneSeat : DB := { events := [evOneSeat], bookings := [], nextId := 200 }

/-! Event moderation: organizer update and admin reject handlers. -/

/-- Role carried by the verified JWT (`role` enum of `models/User.js` as used
by the middleware checks). -/
inductive Role where
  | user
  | organizer
  | admin
deriving DecidableEq, Repr

/-- Body of `PUT /events/:id`.  A field is `none` when absent from the JSON
body.  `date` stands for `new Date(date)` of a truthy date string (`none`
covers absent or falsy). -/
structure UpdateBody where
  title : Option String
  description : Option String
  date : Option Nat
  time : Option String
  location : Option String
  price : Option Nat
  totalSeats : Option Nat
  images : Option (List String)
  isFeatured : Option Bool
deriving DecidableEq, Repr

/-- JS `x || fallback` for a string field: absent or empty keeps the old
value. -/
def jsOrString (v : Option String) (d : String) : String :=
  match v with
  | some s => if s = "" then d else s
  | none => d

/-- JS `x || fallback` (and equally `x ? f x : fallback`) for a numeric field:
absent or 0 keeps the old value. -/
def jsOrNat (v : Option Nat) (d : Nat) : Nat :=
  match v with
  | some n => if n = 0 then d else n
  | none => d

/-- JS `String.prototype.trim` — strips leading and trailing whitespace.
(Executable model of the `.trim()` calls in the handlers.) -/
def jsTrim (s : String) : String :=
  ⟨((s.toList.dropWhile Char.isWhitespace).reverse.dropWhile
      Char.isWhitespace).reverse⟩

/-- The mongoose `lowercase: true` setter (JS `toLowerCase`) on ASCII
emails. -/
def jsToLower (s : String) : String :=
  ⟨s.toList.map Char.toLower⟩

/-- The category enum of `models/Event.js`. -/
def categoryValid (c : String) : Bool :=
  c == "Music" || c == "Sports" || c == "Technology" || c == "Arts" ||
  c == "Food & Drink" || c == "Entertainment" || c == "Business" ||
  c == "Health" || c == "Education" || c == "Other"

/-- The `models/Event.js` validators that `event.save()` runs and that can
fail over this model's fields: `required` on the strings (`title` — checked
after its `trim` setter has run — `description`, `time`, `location`, which
have no trim setter, so whitespace-only values pass), the category enum, and
`totalSeats ≥ 1` (`min: 1`).  `price`, `availableSeats`, `rating` carry
`min: 0`, which cannot fail on `Nat`; `date`/`organizer` are always present
here. -/
def eventSchemaOk (ev : Event) : Bool :=
  ev.title != "" && ev.description != "" && categoryValid ev.category &&
  ev.time != "" && ev.location != "" && decide (1 ≤ ev.totalSeats)

/-- The in-memory document the update handler's `Object.assign` builds, as it
stands when `event.save()` validates it: each body field is merged by JS
truthiness and the schema's `trim` setter has rewritten `title` (the only
`trim: true` path of the Event schema; it runs on assignment, so a truthy
whitespace-only body title becomes the empty string before `required` is
checked). -/
def updatedDoc (ev : Event) (body : UpdateBody) : Event :=
  { ev with
    title := jsTrim (jsOrString body.title ev.title),
    description := jsOrString body.description ev.description,
    date := body.date.getD ev.date,
    time := jsOrString body.time ev.time,
    location := jsOrString body.location ev.location,
    price := body.price.getD ev.price,
    totalSeats := jsOrNat body.totalSeats ev.totalSeats,
    images := body.images.getD ev.images,
    isFeatured := body.isFeatured.getD ev.isFeatured,
    status := EventStatus.pending,
    adminNote := "" }

/-- Outcome of `PUT /events/:id`. -/
inductive UpdateOutcome where
  /-- 403 from `organizerMiddleware`, or 403 `'Not authorized to update this
  event'` from the ownership check. -/
  | forbidden
  /-- 404 `'Event not found'`. -/
  | notFound
  /-- 500 `'Error updating event'`: `event.save()` rejected the document
  (schema validation); nothing is persisted. -/
  | internalError
  /-- 200 `'Event updated — resubmitted for approval'` with the saved event. -/
  | ok (ev : Event)
deriving DecidableEq, Repr

/-- `PUT /events/:id` handler (organizer update, `routes/events.js` lines
549-581 of the part_002 copy; the variants in `src/routes/event.routes.js`
and `src/routes/admin.routes.js` assign the same fields the same way).  The
`Object.assign` sets `status: 'pending'` and `adminNote: ''`; `reviewedAt`
and `reviewedBy` are not among the assigned fields.  `totalSeats` is taken
from the body whenever truthy, with no check against existing bookings.
`event.save()` then validates the document (`eventSchemaOk` after the title
trim setter); a validation failure is caught and answered 500 with nothing
persisted. -/
def updateEvent (db : DB) (callerId : Oid) (callerRole : Role) (eventId : Oid)
    (body : UpdateBody) : UpdateOutcome × DB :=
  if ¬ (callerRole = Role.organizer ∨ callerRole = Role.admin) then (.forbidden, db)
  else
    match findEvent db.events eventId with
    | none => (.notFound, db)
    | some ev =>
      if ev.organizer ≠ callerId then (.forbidden, db)
      else
        let ev' := updatedDoc ev body
        if eventSchemaOk ev' then
          (.ok ev', { db with events := saveEvent db.events ev' })
        else (.internalError, db)

/-- Outcome of `PATCH /events/:id/reject`. -/
inductive RejectOutcome where
  /-- 403 `'Admin access only'`. -/
  | forbidden
  /-- 400 `'Please provide a rejection reason (min 5 characters)'`. -/
  | validationError
  /-- 404 `'Event not found'`. -/
  | notFound
  /-- 200, carrying the updated event (`findByIdAndUpdate` with `new: true`). -/
  | ok (ev : Event)
deriving DecidableEq, Repr

/-- `PATCH /events/:id/reject` handler (`routes/events.js` lines 509-544 of
the part_002 copy; identical in `src/routes/event.routes.js`).  `reason?` is
`none` when the body field is absent (`!reason` also catches the empty
string, whose trimmed length is 0 anyway); `now` stands for `new Date()`. -/
def rejectEvent (db : DB) (callerId : Oid) (callerRole : Role) (eventId : Oid)
    (reason? : Option String) (now : Nat) : RejectOutcome × DB :=
  if callerRole ≠ Role.admin then (.forbidden, db)
  else
    match reason? with
    | none => (.validationError, db)
    | some reason =>
      if (jsTrim reason).length < 5 then (.validationError, db)
      else
        match findEvent db.events eventId with
        | none => (.notFound, db)
        | some ev =>
          let ev' := { ev with status := EventStatus.rejected,
                               adminNote := jsTrim reason,
                               reviewedAt := some now,
                               reviewedBy := some callerId }
          (.ok ev', { db with events := saveEvent db.events ev' })

/-- A rejected event owned by organizer 9, with reviewer stamps set by the
rejecting admin 8. -/
def evRejected : Event :=
  { id := 2, title := "Street food fair", description := "food trucks",
    category := "Food & Drink", date := 20250303, time := "12:00",
    location := "Market square", organizer := 9, images := [], price := 0,
    totalSeats := 5, availableSeats := 5, isFeatured := false, isActive := true,
    bookings := [], status := .rejected, adminNote := "bad location",
    reviewedAt := some 10, reviewedBy := some 8 }

/-- Store holding only `evRejected`. -/
def dbRejected : DB := { events := [evRejected], bookings := [], nextId := 300 }

/-- An approved event (id 3, organizer 9, 10 total seats) against which a
3-seat confirmed booking exists. -/
def evBooked : Event :=
  { id := 3, title := "Tech meetup", description := "talks", category := "Technology",
    date := 20250404, time := "09:00", location := "Campus", organizer := 9,
    images := [], price := 4, totalSeats := 10, availableSeats := 7,
    isFeatured := false, isActive := true, bookings := [70],
    status := .approved, adminNote := "", reviewedAt := some 13, reviewedBy := some 8 }

/-- The 3-seat confirmed booking on `evBooked`. -/
def bookingOnEvBooked : Booking :=
  { id := 70, user := 7, event := 3, numberOfSeats := 3, totalPrice := 12,
    status := .confirmed }

/-- Store holding `evBooked` together with its booking. -/
def dbBooked : DB :=
  { events := [evBooked], bookings := [bookingOnEvBooked], nextId := 400 }

/-- Update body carrying only a new title. -/
def bodyTitleOnly : UpdateBody :=
  { title := some "Street food fair v2", description := none, date := none,
    time := none, location := none, price := none, totalSeats := none,
    images := none, isFeatured := none }

/-- Update body carrying only `totalSeats: 50`. -/
def bodySeats50 : UpdateBody :=
  { title := none, description := none, date := none, time := none,
    location := none, price := none, totalSeats := some 50, images := none,
    isFeatured := none }

/-! Wishlist store. -/

/-- Wishlist document (`src/models/Wishlist.js`). -/
structure WishlistItem where
  id : Oid
  user : Oid
  event : Oid
deriving DecidableEq, Repr

/-- Wishlist collection. -/
structure WishDB where
  items : List WishlistItem
  nextId : Oid
deriving DecidableEq, Repr

/-- Outcome of `POST /wishlist`. -/
inductive WishOutcome where
  /-- 400 `'Event ID is required'`. -/
  | validationError
  /-- 200 `'Already in wishlist'`, carrying the existing item. -/
  | alreadyInWishlist (w : WishlistItem)
  /-- 201 `'Added to wishlist'`, carrying the new item. -/
  | added (w : WishlistItem)
deriving DecidableEq, Repr

/-- `POST /wishlist` handler (`src/routes/wishlist.routes.js` lines 46-81):
`Wishlist.findOne({ user, event })`, return the existing item as a 200
success, else insert. -/
def addWishlist (db : WishDB) (userId : Oid) (eventId? : Option Oid) :
    WishOutcome × WishDB :=
  match eventId? with
  | none => (.validationError, db)
  | some eventId =>
    match db.items.find? (fun w => w.user == userId && w.event == eventId) with
    | some existing => (.alreadyInWishlist existing, db)
    | none =>
      let w : WishlistItem := { id := db.nextId, user := userId, event := eventId }
      (.added w, { items := db.items ++ [w], nextId := db.nextId + 1 })

/-- Number of stored wishlist entries for the (user, event) pair. -/
def wishlistCount (db : WishDB) (u e : Oid) : Nat :=
  (db.items.filter (fun w => w.user == u && w.event == e)).length

/-- An empty wishlist collection. -/
def wishDB0 : WishDB := { items := [], nextId := 500 }

/-! Registration. -/

/-- User document (`models/User.js`); profile fields not read by the register
handler are elided.  `password` holds the bcrypt digest. -/
structure User where
  id : Oid
  name : String
  email : String
  password : String
  role : String
deriving DecidableEq, Repr

/-- User collection. -/
structure UserDB where
  users : List User
  nextId : Oid
deriving DecidableEq, Repr

/-- The `role` enum of `models/User.js`: `['user', 'organizer', 'admin']`. -/
def roleValid (r : String) : Bool :=
  r == "user" || r == "organizer" || r == "admin"

/-- JS `\w`: ASCII letter, digit or underscore. -/
def isWordChar (c : Char) : Bool :=
  c.isAlphanum || c = '_'

/-- Chars after the leading word char of `\w+([.-]?\w+)*`: every `.` or `-`
must be immediately followed by a word char, and the run must end with a word
char. -/
def atomRest : List Char → Bool
  | [] => true
  | c :: rest =>
    if isWordChar c then atomRest rest
    else if c = '.' || c = '-' then
      match rest with
      | [] => false
      | d :: rest' => isWordChar d && atomRest rest'
    else false

/-- Matches `\w+([.-]?\w+)*`. -/
def atomOk (l : List Char) : Bool :=
  match l with
  | [] => false
  | c :: rest => isWordChar c && atomRest rest

/-- Matches `\w{2,3}(\.\w{2,3})*` — the tail of `(\.\w{2,3})+` after its
leading dot: two word chars, then either the end, a dot starting the next
group, or a third word char followed by the end or a dot and the next
group. -/
def tldGroup : List Char → Bool
  | a :: b :: rest =>
    isWordChar a && isWordChar b &&
      (match rest with
       | [] => true
       | '.' :: rest' => tldGroup rest'
       | c :: rest' =>
         isWordChar c &&
           (match rest' with
            | [] => true
            | '.' :: rest'' => tldGroup rest''
            | _ => false))
  | _ => false

/-- Matches `(\.\w{2,3})+` against the whole list. -/
def tldOk : List Char → Bool
  | '.' :: rest => tldGroup rest
  | _ => false

/-- Matches `\w+([.-]?\w+)*(\.\w{2,3})+` by trying every split point between
the atom part and the TLD groups (regex backtracking = existence of a
split). -/
def domainOk (l : List Char) : Bool :=
  (List.range (l.length + 1)).any (fun i => atomOk (l.take i) && tldOk (l.drop i))

/-- The email pattern of `models/User.js`:
`^\w+([.-]?\w+)*@\w+([.-]?\w+)*(\.\w{2,3})+$` — an atom part, a single `@`
(the part before the first `@` must be a local atom, and the domain syntax
excludes any further `@`), then a domain. -/
def emailOk (s : String) : Bool :=
  let cs := s.toList
  let before := cs.takeWhile (fun c => c != '@')
  before.length < cs.length && atomOk before &&
    domainOk (cs.drop (before.length + 1))

/-- Outcome of `POST /auth/register` (`routes/auth.routes.js` lines 18-73). -/
inductive RegisterOutcome where
  /-- 400 `'Name, email, and password are required'`. -/
  | validationError
  /-- 409 `'Email already registered'`. -/
  | conflict
  /-- 500 `'Registration failed'`: the mongoose schema rejected the `save`. -/
  | internalError
  /-- 201 `'User registered successfully'`. -/
  | created (u : User)
deriving DecidableEq, Repr

/-- `POST /auth/register` handler.  `role?` is the raw body field (`none` =
absent); the stored role is `role || 'user'`.  `hash` stands for the bcrypt
digest of the password (credential hashing is the external auth
collaborator's).  The mongoose `save` applies the schema's `trim`/`lowercase`
setters and can reject the document on the role enum, the email pattern, or
`name`'s `required` after its `trim` setter (a truthy whitespace-only name
passes the handler's `!name` check but trims to the empty string and fails
`required`); `minlength: 6` applies to the 60-character bcrypt hash, so it
never fires.  A rejected save is caught and answered 500.  The duplicate
check `User.findOne({ email })` has the `lowercase` setter applied to the
filter value. -/
def register (db : UserDB) (name email password : String) (role? : Option String)
    (hash : String) : RegisterOutcome × UserDB :=
  if name = "" ∨ email = "" ∨ password = "" then (.validationError, db)
  else
    match db.users.find? (fun u => u.email == jsToLower email) with
    | some _ => (.conflict, db)
    | none =>
      let role := match role? with
        | none => "user"
        | some r => if r = "" then "user" else r
      let u : User := { id := db.nextId, name := jsTrim name,
                        email := jsToLower email, password := hash, role := role }
      if jsTrim name != "" && roleValid role && emailOk (jsToLower email) then
        (.created u, { users := db.users ++ [u], nextId := db.nextId + 1 })
      else (.internalError, db)

/-- An empty user collection. -/
def userDB0 : UserDB := { users := [], nextId := 0 }

/-! Basic lemmas about lookup after save. -/

/-- Saving a document only rewrites the entries that share its id, so lookup
after a save is lookup before the save with that rewrite applied. -/
theorem findEvent_saveEvent (es : List Event) (ev' : Event) (i : Oid) :
    findEvent (saveEvent es ev') i =
      (findEvent es i).map (fun e => if e.id == ev'.id then ev' else e) := by
  induction es with
  | nil => rfl
  | cons e es ih =>
    unfold findEvent saveEvent at ih ⊢
    rw [List.map_cons]
    by_cases h1 : e.id = ev'.id
    · by_cases h2 : e.id = i
      · have h3 : ev'.id = i := h1 ▸ h2
        rw [if_pos (show (e.id == ev'.id) = true by simp [h1]),
            List.find?_cons_of_pos (p := fun (y : Event) => y.id == i) _ (by simp [h3]),
            List.find?_cons_of_pos (p := fun (y : Event) => y.id == i) _ (by simp [h2])]
        simp [h1]
      · have h3 : ¬ ev'.id = i := fun hh => h2 (h1.trans hh)
        rw [if_pos (show (e.id == ev'.id) = true by simp [h1]),
            List.find?_cons_of_neg (p := fun (y : Event) => y.id == i) _ (by simp [h3]),
            List.find?_cons_of_neg (p := fun (y : Event) => y.id == i) _ (by simp [h2])]
        exact ih
    · by_cases h2 : e.id = i
      · rw [if_neg (by simp [h1]),
            List.find?_cons_of_pos (p := fun (y : Event) => y.id == i) _ (by simp [h2]),
            List.find?_cons_of_pos (p := fun (y : Event) => y.id == i) _ (by simp [h2])]
        simp [h1]
      · rw [if_neg (by simp [h1]),
            List.find?_cons_of_neg (p := fun (y : Event) => y.id == i) _ (by simp [h2]),
            List.find?_cons_of_neg (p := fun (y : Event) => y.id == i) _ (by simp [h2])]
        exact ih

/-- Booking analogue of `findEvent_saveEvent`. -/
theorem findBooking_saveBooking (bs : List Booking) (b' : Booking) (i : Oid) :
    findBooking (saveBooking bs b') i =
      (findBooking bs i).map (fun x => if x.id == b'.id then b' else x) := by
  induction bs with
  | nil => rfl
  | cons x bs ih =>
    unfold findBooking saveBooking at ih ⊢
    rw [List.map_cons]
    by_cases h1 : x.id = b'.id
    · by_cases h2 : x.id = i
      · have h3 : b'.id = i := h1 ▸ h2
        rw [if_pos (show (x.id == b'.id) = true by simp [h1]),
            List.find?_cons_of_pos (p := fun (y : Booking) => y.id == i) _ (by simp [h3]),
            List.find?_cons_of_pos (p := fun (y : Booking) => y.id == i) _ (by simp [h2])]
        simp [h1]
      · have h3 : ¬ b'.id = i := fun hh => h2 (h1.trans hh)
        rw [if_pos (show (x.id == b'.id) = true by simp [h1]),
            List.find?_cons_of_neg (p := fun (y : Booking) => y.id == i) _ (by simp [h3]),
            List.find?_cons_of_neg (p := fun (y : Booking) => y.id == i) _ (by simp [h2])]
        exact ih
    · by_cases h2 : x.id = i
      · rw [if_neg (by simp [h1]),
            List.find?_cons_of_pos (p := fun (y : Booking) => y.id == i) _ (by simp [h2]),
            List.find?_cons_of_pos (p := fun (y : Booking) => y.id == i) _ (by simp [h2])]
        simp [h1]
      · rw [if_neg (by simp [h1]),
            List.find?_cons_of_neg (p := fun (y : Booking) => y.id == i) _ (by simp [h2]),
            List.find?_cons_of_neg (p := fun (y : Booking) => y.id == i) _ (by simp [h2])]
        exact ih

/-- A freshly appended booking whose id occurs nowhere earlier is the one a
lookup by its id returns. -/
theorem findBooking_append_fresh (l : List Booking) (b : Booking)
    (h : ∀ x ∈ l, x.id ≠ b.id) : findBooking (l ++ [b]) b.id = some b := by
  have h1 : List.find? (fun x => x.id == b.id) l = none := by
    rw [List.find?_eq_none]
    intro x hx
    simp [h x hx]
  unfold findBooking
  rw [List.find?_append, h1, Option.none_or,
      List.find?_cons_of_pos (p := fun (y : Booking) => y.id == b.id) _ (by simp)]

/-- The booking table after a cancel call is either untouched (404/403 paths)
or is the old table with the targeted booking rewritten to `cancelled`. -/
theorem cancelBooking_bookings (db : DB) (c i : Oid) :
    (cancelBooking db c i).2.bookings = db.bookings ∨
    ∃ b, findBooking db.bookings i = some b ∧
      (cancelBooking db c i).2.bookings =
        saveBooking db.bookings { b with status := BookingStatus.cancelled } := by
  unfold cancelBooking
  cases h : findBooking db.bookings i with
  | none => exact Or.inl rfl
  | some b =>
    dsimp only
    by_cases hu : b.user ≠ c
    · rw [if_pos hu]
      exact Or.inl rfl
    · rw [if_neg hu]
      refine Or.inr ⟨b, rfl, ?_⟩
      dsimp only
      split <;> rfl

/-- A cancel call may flip a booking's status but never touches its
`totalPrice` or `numberOfSeats`. -/
theorem price_frame_after_cancel (db' : DB) (b : Booking)
    (hb : findBooking db'.bookings b.id = some b) :
    ∀ c i, ∃ b₂,
      findBooking ((cancelBooking db' c i).2.bookings) b.id = some b₂ ∧
      b₂.totalPrice = b.totalPrice ∧ b₂.numberOfSeats = b.numberOfSeats := by
  intro c i
  rcases cancelBooking_bookings db' c i with h | ⟨b₀, hfind, heq⟩
  · exact ⟨b, by rw [h, hb], rfl, rfl⟩
  · rw [heq, findBooking_saveBooking, hb, Option.map_some']
    by_cases hid : b.id = ({ b₀ with status := BookingStatus.cancelled } : Booking).id
    · have hbid : b₀.id = i := by
        have h2 := List.find?_some hfind
        simpa using h2
      have hii : i = b.id := by
        have hbb : b.id = b₀.id := hid
        exact hbid.symm.trans hbb.symm
      rw [hii] at hfind
      rw [hb] at hfind
      have hb₀ : b = b₀ := by injection hfind
      subst hb₀
      exact ⟨_, rfl, by simp, by simp⟩
    · exact ⟨_, rfl, by simp [hid], by simp [hid]⟩

/-- C4: a successful booking creation of `seats` seats on an event priced
`ev.price` persists a booking with status `confirmed` and
`totalPrice = ev.price × seats` — the price snapshot taken at creation — and
decrements the event's `availableSeats` by exactly `seats`; moreover no later
cancellation call ever changes the stored booking's `totalPrice` or
`numberOfSeats`, so the price is never recomputed. -/
theorem createBooking_success_postconditions
    (db : DB) (userId eventId : Oid) (seats : Int) (ev : Event)
    (hev : findEvent db.events eventId = some ev)
    (hseats : 1 ≤ seats)
    (havail : seats.toNat ≤ ev.availableSeats)
    (hfresh : ∀ x ∈ db.bookings, x.id ≠ db.nextId) :
    ∃ b db',
      createBooking db userId (some eventId) seats = (.created b, db') ∧
      b.status = .confirmed ∧
      b.totalPrice = ev.price * seats.toNat ∧
      b.numberOfSeats = seats.toNat ∧
      (∃ ev', findEvent db'.events eventId = some ev' ∧
        ev'.availableSeats = ev.availableSeats - seats.toNat) ∧
      (∀ callerId bookingId, ∃ b₂,
        findBooking ((cancelBooking db' callerId bookingId).2.bookings)
          db.nextId = some b₂ ∧
        b₂.totalPrice = ev.price * seats.toNat ∧
        b₂.numberOfSeats = seats.toNat) := by
  have hlt : ¬ seats < 1 := by omega
  have hcond : ¬ ((ev.availableSeats : Int) < seats) := by omega
  unfold createBooking
  dsimp only
  rw [if_neg hlt, hev]
  dsimp only
  unfold createBookingWrite
  rw [if_neg hcond]
  refine ⟨_, _, rfl, rfl, rfl, rfl, ?_, ?_⟩
  · dsimp only
    rw [findEvent_saveEvent, hev, Option.map_some']
    exact ⟨_, rfl, by simp⟩
  · intro callerId bookingId
    exact price_frame_after_cancel _
      { id := db.nextId, user := userId, event := eventId,
        numberOfSeats := seats.toNat, totalPrice := ev.price * seats.toNat,
        status := .confirmed }
      (findBooking_append_fresh db.bookings _ (fun x hx => hfresh x hx))
      callerId bookingId

/-- Witness for C4: user 7 books 2 seats at price 5 on the 2-seat event; the
booking is confirmed with `totalPrice = 10` and the event drops to 0 available
seats. -/
theorem createBooking_success_postconditions_witness :
    ∃ b db',
      createBooking dbTwoSeats 7 (some 1) 2 = (.created b, db') ∧
      b.status = .confirmed ∧
      b.totalPrice = evTwoSeats.price * (2 : Int).toNat ∧
      b.numberOfSeats = (2 : Int).toNat ∧
      (∃ ev', findEvent db'.events 1 = some ev' ∧
        ev'.availableSeats = evTwoSeats.availableSeats - (2 : Int).toNat) ∧
      (∀ callerId bookingId, ∃ b₂,
        findBooking ((cancelBooking db' callerId bookingId).2.bookings)
          dbTwoSeats.nextId = some b₂ ∧
        b₂.totalPrice = evTwoSeats.price * (2 : Int).toNat ∧
        b₂.numberOfSeats = (2 : Int).toNat) :=
  createBooking_success_postconditions dbTwoSeats 7 1 2 evTwoSeats (by decide)
    (by decide) (by decide) (by decide)


/-- C1: after the operation sequence create(1 seat) · cancel · cancel on the
2-seat event, the handler has credited the seat back twice: the stored event
shows `availableSeats = 3` while no non-cancelled booking exists, so
`availableSeats + Σ(numberOfSeats over non-cancelled bookings) = 3 ≠ 2 =
totalSeats`.  The seat invariant fails on every event of the resulting
store. -/
theorem double_cancel_breaks_seat_invariant :
    dbDoubleCancel.events.map Event.availableSeats = [3] ∧
    dbDoubleCancel.events.map Event.totalSeats = [2] ∧
    activeSeats dbDoubleCancel.bookings 1 = 0 ∧
    ∀ ev ∈ dbDoubleCancel.events, ¬ seatInvariant dbDoubleCancel ev := by
  decide

/-- C2: cancelling a booking that is already `cancelled` is not a no-op: the
handler answers 200 success but increments the event's `availableSeats` a
second time (2 → 3), double-releasing the seat.  The code never checks
`booking.status` before the release (`src/routes/booking.routes.js`
lines 150-156). -/
theorem second_cancel_double_releases :
    (cancelBooking dbAfterCancel 7 50).1 = .ok bookingCancelled ∧
    dbAfterCancel.events.map Event.availableSeats = [2] ∧
    (cancelBooking dbAfterCancel 7 50).2.events.map Event.availableSeats = [3] := by
  decide

/-- C3: with `availableSeats = k = 1`, two concurrent create-booking calls of
1 seat each, interleaved read₁ · read₂ · write₁ · write₂, both succeed (201):
2 seats are sold against 1 available, and the final store has two confirmed
1-seat bookings while the event shows `availableSeats = 0`.  The handler's
read-then-write on the seat counter is not atomic, so the excess call does not
fail with Conflict. -/
theorem race_two_creates_overbooks :
    (raceTwoCreates dbOneSeat 7 8 1 1 1).1.1 =
      .created { id := 200, user := 7, event := 1, numberOfSeats := 1,
                 totalPrice := 10, status := .confirmed } ∧
    (raceTwoCreates dbOneSeat 7 8 1 1 1).1.2 =
      .created { id := 201, user := 8, event := 1, numberOfSeats := 1,
                 totalPrice := 10, status := .confirmed } ∧
    activeSeats (raceTwoCreates dbOneSeat 7 8 1 1 1).2.bookings 1 = 2 ∧
    dbOneSeat.events.map Event.availableSeats = [1] := by
  decide

/-- C5 counterexample: for a request whose event id references no stored event
and whose seat count is 0, the handler answers 400 ValidationError (`'Event ID
and number of seats are required'`), not 404 NotFound — the body validation
runs before the event lookup, so "fails with NotFound when the referenced
event does not exist" is false as stated. -/
theorem createBooking_missing_event_bad_seats_is_validation :
    findEvent dbOneSeat.events 5 = none ∧
    createBooking dbOneSeat 7 (some 5) 0 = (.validationError, dbOneSeat) ∧
    (createBooking dbOneSeat 7 (some 5) 0).1 ≠ .notFound := by
  decide

/-- C5 (amended): the checks run in source order — ValidationError whenever
the event id is absent or the seat count is below 1; NotFound when validation
passes and the event does not exist; Conflict (`'Not enough seats available'`)
when the event exists, validation passes and `availableSeats < seats`.  Every
failure path returns before any write, so the store — in particular every
event's seat counters — is unchanged. -/
theorem createBooking_failure_cases (db : DB) (userId : Oid)
    (eventId? : Option Oid) (seats : Int) :
    ((eventId? = none ∨ seats < 1) →
      createBooking db userId eventId? seats = (.validationError, db)) ∧
    (∀ eventId, eventId? = some eventId → 1 ≤ seats →
      findEvent db.events eventId = none →
      createBooking db userId eventId? seats = (.notFound, db)) ∧
    (∀ eventId ev, eventId? = some eventId → 1 ≤ seats →
      findEvent db.events eventId = some ev →
      (ev.availableSeats : Int) < seats →
      createBooking db userId eventId? seats = (.conflict ev.availableSeats, db)) := by
  refine ⟨?_, ?_, ?_⟩
  · rintro (h | h)
    · subst h; rfl
    · cases eventId? with
      | none => rfl
      | some eid =>
        unfold createBooking
        dsimp only
        rw [if_pos h]
  · rintro eid rfl hs hnone
    unfold createBooking
    dsimp only
    rw [if_neg (by omega), hnone]
  · rintro eid ev rfl hs hsome hlt
    unfold createBooking
    dsimp only
    rw [if_neg (by omega), hsome]
    dsimp only
    unfold createBookingWrite
    rw [if_pos hlt]

/-- Witness for C5 (amended), exercising all three failure branches on
concrete stores: absent event id, unknown event id, and a 2-seat request
against 1 available seat. -/
theorem createBooking_failure_cases_witness :
    createBooking dbOneSeat 7 none 1 = (.validationError, dbOneSeat) ∧
    createBooking dbOneSeat 7 (some 5) 1 = (.notFound, dbOneSeat) ∧
    createBooking dbOneSeat 7 (some 1) 2 = (.conflict 1, dbOneSeat) :=
  ⟨(createBooking_failure_cases dbOneSeat 7 none 1).1 (Or.inl rfl),
   (createBooking_failure_cases dbOneSeat 7 (some 5) 1).2.1 5 rfl (by decide)
     (by decide),
   (createBooking_failure_cases dbOneSeat 7 (some 1) 2).2.2 1 evOneSeat rfl
     (by decide) (by decide) (by decide)⟩

/-- C6 counterexample: organizer 9 edits their rejected event 2 (which has
`reviewedAt = some 10`, `reviewedBy = some 8`).  The saved event is back to
`pending` with an empty admin note, but both reviewer stamps survive — they
are not cleared as the claim states. -/
theorem update_keeps_reviewer_stamps :
    (updateEvent dbRejected 9 .organizer 2 bodyTitleOnly).2.events.map
      Event.status = [.pending] ∧
    (updateEvent dbRejected 9 .organizer 2 bodyTitleOnly).2.events.map
      Event.adminNote = [""] ∧
    (updateEvent dbRejected 9 .organizer 2 bodyTitleOnly).2.events.map
      Event.reviewedAt = [some 10] ∧
    (updateEvent dbRejected 9 .organizer 2 bodyTitleOnly).2.events.map
      Event.reviewedBy = [some 8] ∧
    (updateEvent dbRejected 9 .organizer 2 bodyTitleOnly).2.events.map
      Event.reviewedAt ≠ [(none : Option Nat)] := by
  decide

/-- C6 (amended): an edit by the owning organizer (in any moderation state)
whose resulting document passes the schema validation run by `event.save()`
resets the event's status to `pending` and clears the admin note, but leaves
`reviewedAt` and `reviewedBy` exactly as they were — the handler's
`Object.assign` does not include the reviewer stamps; when the document fails
validation (e.g. a truthy whitespace-only title trimmed to empty) the request
answers 500 and nothing is persisted, the stamps again untouched. -/
theorem updateEvent_resets_status_clears_note_keeps_stamps
    (db : DB) (callerId : Oid) (callerRole : Role) (eventId : Oid)
    (body : UpdateBody) (ev : Event)
    (hrole : callerRole = Role.organizer ∨ callerRole = Role.admin)
    (hev : findEvent db.events eventId = some ev)
    (hown : ev.organizer = callerId) :
    (eventSchemaOk (updatedDoc ev body) = true →
      ∃ ev', updateEvent db callerId callerRole eventId body =
          (.ok ev', { db with events := saveEvent db.events ev' }) ∧
        ev'.status = .pending ∧ ev'.adminNote = "" ∧
        ev'.reviewedAt = ev.reviewedAt ∧ ev'.reviewedBy = ev.reviewedBy) ∧
    (eventSchemaOk (updatedDoc ev body) = false →
      updateEvent db callerId callerRole eventId body = (.internalError, db)) := by
  unfold updateEvent
  rw [if_neg (not_not_intro hrole), hev]
  dsimp only
  rw [if_neg (not_not_intro hown)]
  constructor
  · intro hok
    rw [if_pos hok]
    exact ⟨_, rfl, rfl, rfl, rfl, rfl⟩
  · intro hbad
    rw [if_neg (by simp [hbad])]

/-- Witness for C6 (amended) at the rejected event 2: after the edit the
stamps still read `some 10` / `some 8`. -/
theorem updateEvent_reset_witness :
    ∃ ev', updateEvent dbRejected 9 .organizer 2 bodyTitleOnly =
        (.ok ev', { dbRejected with events := saveEvent dbRejected.events ev' }) ∧
      ev'.status = .pending ∧ ev'.adminNote = "" ∧
      ev'.reviewedAt = evRejected.reviewedAt ∧
      ev'.reviewedBy = evRejected.reviewedBy :=
  (updateEvent_resets_status_clears_note_keeps_stamps dbRejected 9 .organizer 2
    bodyTitleOnly evRejected (Or.inl rfl) (by decide) (by decide)).1 (by decide)

/-- C7 counterexample: event 3 has a live confirmed booking, yet the organizer
edit with body `totalSeats: 50` changes the stored `totalSeats` from 10 to
50 — `totalSeats` is not immutable once bookings exist. -/
theorem update_changes_totalSeats_despite_booking :
    (∃ b ∈ dbBooked.bookings, b.event = 3 ∧ b.status ≠ .cancelled) ∧
    dbBooked.events.map Event.totalSeats = [10] ∧
    (updateEvent dbBooked 9 .organizer 3 bodySeats50).2.events.map
      Event.totalSeats = [50] := by
  decide

/-- C7 (amended): no operation guards `totalSeats` against existing bookings:
whenever the edited document passes the save's schema validation, the
organizer edit stores any nonzero supplied `totalSeats` even when a booking
exists on the event (`totalSeats: totalSeats || event.totalSeats`); the old
value survives only when the body omits the field or supplies 0, or when the
save is rejected wholesale by validation (500, nothing persisted). -/
theorem updateEvent_overwrites_totalSeats
    (db : DB) (callerId : Oid) (callerRole : Role) (eventId : Oid)
    (body : UpdateBody) (ev : Event) (n : Nat)
    (hrole : callerRole = Role.organizer ∨ callerRole = Role.admin)
    (hev : findEvent db.events eventId = some ev)
    (hown : ev.organizer = callerId)
    (_hbooked : ∃ b ∈ db.bookings, b.event = eventId ∧ b.status ≠ .cancelled)
    (hn : body.totalSeats = some n) (hnz : n ≠ 0)
    (hok : eventSchemaOk (updatedDoc ev body) = true) :
    ∃ ev', updateEvent db callerId callerRole eventId body =
        (.ok ev', { db with events := saveEvent db.events ev' }) ∧
      ev'.totalSeats = n := by
  unfold updateEvent
  rw [if_neg (not_not_intro hrole), hev]
  dsimp only
  rw [if_neg (not_not_intro hown)]
  rw [if_pos hok]
  refine ⟨_, rfl, ?_⟩
  show jsOrNat body.totalSeats ev.totalSeats = n
  rw [hn]
  simp [jsOrNat, hnz]

/-- Witness for C7 (amended): the 10-seat event with a live booking ends up
with `totalSeats = 50`. -/
theorem updateEvent_overwrites_totalSeats_witness :
    ∃ ev', updateEvent dbBooked 9 .organizer 3 bodySeats50 =
        (.ok ev', { dbBooked with events := saveEvent dbBooked.events ev' }) ∧
      ev'.totalSeats = 50 :=
  updateEvent_overwrites_totalSeats dbBooked 9 .organizer 3 bodySeats50
    evBooked 50 (Or.inl rfl) (by decide) (by decide)
    ⟨bookingOnEvBooked, by decide⟩ (by decide) (by decide) (by decide)

/-- C8 counterexample: the supplied reason `"a    "` has length 5 — not
missing, not shorter than 5 characters — yet the admin reject call answers
400 ValidationError, because the source checks `reason.trim().length < 5`
and the trimmed reason has length 1. -/
theorem reject_length_check_uses_trimmed_reason :
    ("a    ").length = 5 ∧
    (rejectEvent dbRejected 8 .admin 2 (some "a    ") 99).1 =
      .validationError := by
  decide

/-- C8 (amended): for an admin caller, the reject call answers
ValidationError exactly when the reason is absent or its **trimmed** length
is below 5; with a valid reason and an existing event it stores the trimmed
reason as the admin note, sets the status to `rejected`, and stamps
`reviewedBy` with the admin's id and `reviewedAt` with the review time. -/
theorem reject_validation_iff_and_postconditions
    (db : DB) (adminId : Oid) (eventId : Oid) (reason? : Option String)
    (now : Nat) :
    ((rejectEvent db adminId .admin eventId reason? now).1 = .validationError ↔
      reason? = none ∨ ∃ r, reason? = some r ∧ (jsTrim r).length < 5) ∧
    (∀ r ev, reason? = some r → 5 ≤ (jsTrim r).length →
      findEvent db.events eventId = some ev →
      ∃ ev', rejectEvent db adminId .admin eventId reason? now =
          (.ok ev', { db with events := saveEvent db.events ev' }) ∧
        ev'.status = .rejected ∧ ev'.adminNote = jsTrim r ∧
        ev'.reviewedAt = some now ∧ ev'.reviewedBy = some adminId) := by
  have hrole : ¬ (Role.admin ≠ Role.admin) := by simp
  constructor
  · unfold rejectEvent
    rw [if_neg hrole]
    cases reason? with
    | none => simp
    | some r =>
      dsimp only
      by_cases hlen : (jsTrim r).length < 5
      · simp [hlen]
      · cases hev : findEvent db.events eventId with
        | none => simp [hlen, hev]
        | some ev => simp [hlen, hev]
  · rintro r ev rfl hlen hev
    unfold rejectEvent
    rw [if_neg hrole]
    dsimp only
    rw [if_neg (by omega), hev]
    exact ⟨_, rfl, rfl, rfl, rfl, rfl⟩

/-- Witness for C8 (amended): admin 8 rejects event 2 with reason
`"bad location"`; the event ends rejected with that admin note and fresh
stamps. -/
theorem reject_postconditions_witness :
    ∃ ev', rejectEvent dbRejected 8 .admin 2 (some "bad location") 99 =
        (.ok ev', { dbRejected with events := saveEvent dbRejected.events ev' }) ∧
      ev'.status = .rejected ∧ ev'.adminNote = jsTrim "bad location" ∧
      ev'.reviewedAt = some 99 ∧ ev'.reviewedBy = some 8 :=
  (reject_validation_iff_and_postconditions dbRejected 8 2
    (some "bad location") 99).2 "bad location" evRejected rfl (by decide)
    (by decide)

/-- C9: wishlist add is idempotent — when an entry for the (user, event) pair
already exists, the handler returns that entry unchanged with a 200 success
and does not touch the store; and starting from a store with no entry for the
pair, two successive adds leave exactly one stored entry, the second call
answering success with the entry created by the first. -/
theorem addWishlist_idempotent (db : WishDB) (u e : Oid) :
    (∀ w, db.items.find? (fun x => x.user == u && x.event == e) = some w →
      addWishlist db u (some e) = (.alreadyInWishlist w, db)) ∧
    (wishlistCount db u e = 0 →
      (addWishlist (addWishlist db u (some e)).2 u (some e)).1 =
        .alreadyInWishlist { id := db.nextId, user := u, event := e } ∧
      wishlistCount (addWishlist (addWishlist db u (some e)).2 u (some e)).2
        u e = 1) := by
  constructor
  · intro w hw
    unfold addWishlist
    dsimp only
    rw [hw]
  · intro h0
    have hfil : db.items.filter (fun w => w.user == u && w.event == e) = [] :=
      List.length_eq_zero.mp h0
    have hnone : db.items.find? (fun x => x.user == u && x.event == e) = none := by
      rw [List.find?_eq_none]
      intro x hx hpx
      exact (List.filter_eq_nil_iff.mp hfil x hx) hpx
    have h1 : addWishlist db u (some e) =
        (.added ⟨db.nextId, u, e⟩,
         { items := db.items ++ [⟨db.nextId, u, e⟩], nextId := db.nextId + 1 }) := by
      unfold addWishlist
      dsimp only
      rw [hnone]
    rw [h1]
    have h2 : (db.items ++ [(⟨db.nextId, u, e⟩ : WishlistItem)]).find?
        (fun x => x.user == u && x.event == e) = some ⟨db.nextId, u, e⟩ := by
      rw [List.find?_append, hnone, Option.none_or,
          List.find?_cons_of_pos
            (p := fun (x : WishlistItem) => x.user == u && x.event == e) _
            (by simp)]
    constructor
    · unfold addWishlist
      dsimp only
      rw [h2]
    · unfold addWishlist
      dsimp only
      rw [h2]
      dsimp only
      show ((db.items ++ [(⟨db.nextId, u, e⟩ : WishlistItem)]).filter
        (fun w => w.user == u && w.event == e)).length = 1
      rw [List.filter_append, hfil]
      simp

/-- Witness for C9: two adds of (user 7, event 1) on the empty wishlist leave
one entry, the second returning it as a success. -/
theorem addWishlist_idempotent_witness :
    (addWishlist (addWishlist wishDB0 7 (some 1)).2 7 (some 1)).1 =
      .alreadyInWishlist { id := 500, user := 7, event := 1 } ∧
    wishlistCount (addWishlist (addWishlist wishDB0 7 (some 1)).2 7 (some 1)).2
      7 1 = 1 :=
  (addWishlist_idempotent wishDB0 7 1).2 (by decide)

/-- C10 counterexample: a registration supplying `role: ""` — a role string
that is present, hence not absent — creates the user with role `'user'`, not
the supplied string: `role || 'user'` also defaults on the empty string, so
"defaulting to 'user' only when absent" is false as stated. -/
theorem register_empty_role_defaults :
    (register userDB0 "Mallory" "mallory@example.com" "secretpw" (some "") "h").1 =
      .created { id := 0, name := "Mallory", email := "mallory@example.com",
                 password := "h", role := "user" } ∧
    ("" : String) ≠ "user" := by
  decide

/-- C10 (amended): for a request that passes the handler's presence checks
and the schema validation at save (trimmed name non-empty, schema-valid
email), registration stores exactly the supplied role string whenever it is
non-empty and one of the schema's roles — including `'organizer'` and
`'admin'`, with no authentication gate whatsoever on the field, so any
unauthenticated caller can create an account of any capability tier — and
defaults to `'user'` when the field is absent or falsy (e.g. the empty
string). -/
theorem register_stores_supplied_role (db : UserDB)
    (name email password hash role : String)
    (hname : jsTrim name ≠ "") (hemail : email ≠ "") (hpw : password ≠ "")
    (hunused : ∀ u ∈ db.users, u.email ≠ jsToLower email)
    (hrole : role ≠ "") (hvalid : roleValid role = true)
    (hmail : emailOk (jsToLower email) = true) :
    (∃ u, register db name email password (some role) hash =
        (.created u, { users := db.users ++ [u], nextId := db.nextId + 1 }) ∧
      u.role = role) ∧
    (∃ u, register db name email password none hash =
        (.created u, { users := db.users ++ [u], nextId := db.nextId + 1 }) ∧
      u.role = "user") := by
  have hname0 : name ≠ "" := by
    intro h
    exact hname (by rw [h]; rfl)
  have hval : ¬ (name = "" ∨ email = "" ∨ password = "") := by
    rintro (h | h | h)
    · exact hname0 h
    · exact hemail h
    · exact hpw h
  have hfind : db.users.find? (fun u => u.email == jsToLower email) = none := by
    rw [List.find?_eq_none]
    intro u hu
    simpa using hunused u hu
  constructor
  · unfold register
    rw [if_neg hval, hfind]
    dsimp only
    rw [if_neg hrole, if_pos (show (jsTrim name != "" && roleValid role &&
        emailOk (jsToLower email)) = true by simp [hvalid, hmail, hname])]
    exact ⟨_, rfl, rfl⟩
  · unfold register
    rw [if_neg hval, hfind]
    dsimp only
    rw [if_pos (show (jsTrim name != "" && roleValid "user" &&
        emailOk (jsToLower email)) = true by simp [roleValid, hmail, hname])]
    exact ⟨_, rfl, rfl⟩

/-- Witness for C10 (amended): an unauthenticated registration with
`role: "admin"` yields an admin account; the same request without a role
yields a `'user'` account. -/
theorem register_stores_supplied_role_witness :
    (∃ u, register userDB0 "Mallory" "mallory@example.com" "secretpw"
        (some "admin") "h" =
        (.created u, { users := userDB0.users ++ [u],
                       nextId := userDB0.nextId + 1 }) ∧
      u.role = "admin") ∧
    (∃ u, register userDB0 "Mallory" "mallory@example.com" "secretpw" none "h" =
        (.created u, { users := userDB0.users ++ [u],
                       nextId := userDB0.nextId + 1 }) ∧
      u.role = "user") :=
  register_stores_supplied_role userDB0 "Mallory" "mallory@example.com"
    "secretpw" "h" "admin" (by decide) (by decide) (by decide) (by decide)
    (by decide) (by decide) (by decide)

end EventFinder
